import Mathlib

/-!
Verification of the tenant-isolation and authorization model of the EMS
repository (multi-tenant ERP: PostgreSQL schema with row-level-security
policies, REST API, SPA client).

The database side (tables, RLS policies, `get_current_tenant_id`,
`cleanup_expired_tokens`) is embedded from the SQL migrations under
`src/server/migrations` and `packages/ems-db`.  Tables become lists of row
structures (columns irrelevant to tenant isolation are elided), an RLS
policy becomes a `List.filter` with the policy's `USING` predicate, and
PostgreSQL's three-valued logic for `tenant_id = NULL` is made explicit.

The Rust API server (`ems-server-rs`) is not part of this repository
snapshot (only its README, the SQL migrations and the TypeScript client
are), so its operations (`validate`, `resolveContext`, `joinTenant`,
`createAndJoinTenant`, `revoke`) are modelled from the specification, as
marked on each such definition.
-/

namespace EMS

/-- UUIDs are opaque identifiers; we model them as naturals. -/
abbrev UUID := Nat

/-- The PostgreSQL session variable `app.current_tenant_id`:
either unset, set to a string that does not parse as a UUID, or set to a
UUID. -/
inductive SessionVar where
  | unset : SessionVar
  | malformed (raw : String) : SessionVar
  | uuid (t : UUID) : SessionVar

/-- `public.get_current_tenant_id()` from `000_supabase_setup.sql`:
`current_setting('app.current_tenant_id', true)` returns NULL when the
variable is unset (missing_ok), and the `::uuid` cast of a malformed value
raises, caught by the `WHEN OTHERS THEN RETURN NULL` handler — so both
cases yield NULL. -/
def get_current_tenant_id : SessionVar → Option UUID
  | .unset => none
  | .malformed _ => none
  | .uuid t => some t

/-- The `USING` predicate `tenant_id = public.get_current_tenant_id()`
shared by every direct tenant-isolation policy.  Under SQL three-valued
logic, `tenant_id = NULL` evaluates to NULL, which an RLS policy treats as
not satisfied, hence the `false` branch. -/
def tenantIsolationPolicy (sess : SessionVar) (rowTenant : UUID) : Bool :=
  match get_current_tenant_id sess with
  | some t => decide (rowTenant = t)
  | none => false

/-- role CHECK constraint of `tenant_person` (101_create_person_tables.sql). -/
inductive Role where
  | internal : Role
  | customer : Role
  | vendor : Role
  | distributor : Role
deriving DecidableEq, Repr

/-- token_type CHECK constraint of `token_blacklist`. -/
inductive TokenType where
  | access : TokenType
  | refresh : TokenType
deriving DecidableEq, Repr

/-- A row of `public.jobs` (201_create_jobs_tables.sql); columns not
relevant to tenant isolation are elided. -/
structure JobsRow where
  id : UUID
  tenant_id : UUID
deriving DecidableEq, Repr

/-- A row of `public.orders` (301_create_orders_tables.sql). -/
structure OrdersRow where
  id : UUID
  tenant_id : UUID
deriving DecidableEq, Repr

/-- A row of `public.order_items` (301_create_orders_tables.sql); the
table has no `tenant_id` column, only `order_id` referencing `orders`. -/
structure OrderItemsRow where
  id : UUID
  order_id : UUID
deriving DecidableEq, Repr

/-- A row of `public.tenant_person` (101_create_person_tables.sql). -/
structure TenantPersonRow where
  id : UUID
  person_id : UUID
  tenant_id : UUID
  role : Role
  is_primary : Bool
deriving DecidableEq, Repr

/-- A row of `public.person` (101_create_person_tables.sql); the table has
no `tenant_id` column. -/
structure PersonRow where
  id : UUID
  email : String
deriving DecidableEq, Repr

/-- A row of `public.inventory_items` (401_create_item_tables.sql) — the
tenant-scoped item entity (the `items` table itself is global). -/
structure InventoryItemsRow where
  id : UUID
  tenant_id : UUID
deriving DecidableEq, Repr

/-- A row of `public.assets` (402_create_asset_tables.sql). -/
structure AssetsRow where
  id : UUID
  tenant_id : UUID
deriving DecidableEq, Repr

/-- A row of `public.machines` (402_create_asset_tables.sql). -/
structure MachinesRow where
  id : UUID
  tenant_id : UUID
deriving DecidableEq, Repr

/-- A row of `public.tenants` (001_create_tenants_table.sql). -/
structure TenantRow where
  id : UUID
  name : String
  subdomain : String
  is_active : Bool
deriving DecidableEq, Repr

/-- A row of `public.token_blacklist` (token-blacklist migration):
`token_hash` UNIQUE NOT NULL, `token_type` CHECK access/refresh,
`person_id` and `tenant_id` NOT NULL (non-optional fields), `expires_at`
NOT NULL. -/
structure TokenBlacklistRow where
  id : UUID
  token_hash : Nat
  token_type : TokenType
  person_id : UUID
  tenant_id : UUID
  expires_at : Nat
deriving DecidableEq, Repr

/-- `jobs_tenant_isolation` policy: rows visible on a session are those
whose `tenant_id` equals `get_current_tenant_id()`. -/
def query_jobs (sess : SessionVar) (rows : List JobsRow) : List JobsRow :=
  rows.filter (fun r => tenantIsolationPolicy sess r.tenant_id)

/-- `orders_tenant_isolation` policy. -/
def query_orders (sess : SessionVar) (rows : List OrdersRow) : List OrdersRow :=
  rows.filter (fun r => tenantIsolationPolicy sess r.tenant_id)

/-- `order_items_tenant_isolation` policy:
`order_id IN (SELECT id FROM orders WHERE tenant_id = get_current_tenant_id())`. -/
def query_order_items (sess : SessionVar) (orders : List OrdersRow)
    (rows : List OrderItemsRow) : List OrderItemsRow :=
  rows.filter (fun r =>
    (orders.filter (fun o => tenantIsolationPolicy sess o.tenant_id)).any
      (fun o => decide (o.id = r.order_id)))

/-- `tenant_person_tenant_isolation` policy. -/
def query_tenant_person (sess : SessionVar) (rows : List TenantPersonRow) :
    List TenantPersonRow :=
  rows.filter (fun r => tenantIsolationPolicy sess r.tenant_id)

/-- `person_tenant_isolation` policy:
`id IN (SELECT person_id FROM tenant_person WHERE tenant_id = get_current_tenant_id())`. -/
def query_person (sess : SessionVar) (memberships : List TenantPersonRow)
    (rows : List PersonRow) : List PersonRow :=
  rows.filter (fun p =>
    (memberships.filter (fun m => tenantIsolationPolicy sess m.tenant_id)).any
      (fun m => decide (m.person_id = p.id)))

/-- The PostgreSQL error raised by casting a non-UUID string with `::uuid`. -/
def uuidCastError (raw : String) : String :=
  "invalid input syntax for type uuid: " ++ raw

/-- The inline `USING` predicate
`tenant_id = (current_setting('app.current_tenant_id', true))::uuid` of
`inventory_items_tenant_isolation` and `item_bom_tenant_isolation`
(401_create_item_tables.sql).  Unlike `public.get_current_tenant_id()`
there is no `EXCEPTION WHEN OTHERS` handler here: an unset variable yields
NULL (missing_ok) whose cast is NULL and `tenant_id = NULL` is not
satisfied, but a malformed value makes the `::uuid` cast raise. -/
def inlineTenantPolicy (sess : SessionVar) (rowTenant : UUID) :
    Except String Bool :=
  match sess with
  | .unset => .ok false
  | .malformed raw => .error (uuidCastError raw)
  | .uuid t => .ok (decide (rowTenant = t))

/-- Row-by-row evaluation of a fallible policy predicate: the scan keeps
the rows whose predicate holds and aborts with the raised error as soon as
one evaluation raises. -/
def filterExcept {α : Type} (p : α → Except String Bool) :
    List α → Except String (List α)
  | [] => .ok []
  | x :: xs =>
    match p x with
    | .error e => .error e
    | .ok b =>
      match filterExcept p xs with
      | .error e => .error e
      | .ok rest => .ok (if b then x :: rest else rest)

/-- `inventory_items_tenant_isolation` policy, with the inline cast's
error behavior (no exception handler). -/
def query_inventory_items (sess : SessionVar) (rows : List InventoryItemsRow) :
    Except String (List InventoryItemsRow) :=
  filterExcept (fun r => inlineTenantPolicy sess r.tenant_id) rows

/-- A row of `public.item_bom` (401_create_item_tables.sql); its policy is
the same inline cast as `inventory_items`. -/
structure ItemBomRow where
  id : UUID
  tenant_id : UUID
deriving DecidableEq, Repr

/-- `item_bom_tenant_isolation` policy, with the inline cast's error
behavior (no exception handler). -/
def query_item_bom (sess : SessionVar) (rows : List ItemBomRow) :
    Except String (List ItemBomRow) :=
  filterExcept (fun r => inlineTenantPolicy sess r.tenant_id) rows

/-- `assets_tenant_isolation` policy. -/
def query_assets (sess : SessionVar) (rows : List AssetsRow) : List AssetsRow :=
  rows.filter (fun r => tenantIsolationPolicy sess r.tenant_id)

/-- `machines_tenant_isolation` policy. -/
def query_machines (sess : SessionVar) (rows : List MachinesRow) : List MachinesRow :=
  rows.filter (fun r => tenantIsolationPolicy sess r.tenant_id)

/-- `token_blacklist_tenant_isolation` policy. -/
def query_token_blacklist (sess : SessionVar) (rows : List TokenBlacklistRow) :
    List TokenBlacklistRow :=
  rows.filter (fun r => tenantIsolationPolicy sess r.tenant_id)

theorem tenantIsolationPolicy_none {sess : SessionVar}
    (h : get_current_tenant_id sess = none) (tid : UUID) :
    tenantIsolationPolicy sess tid = false := by
  simp [tenantIsolationPolicy, h]

theorem tenantIsolationPolicy_uuid (t tid : UUID) :
    tenantIsolationPolicy (.uuid t) tid = decide (tid = t) := by
  simp [tenantIsolationPolicy, get_current_tenant_id]

theorem filterExcept_eq_filter {α : Type} (p : α → Except String Bool)
    (q : α → Bool) (l : List α) (h : ∀ x ∈ l, p x = .ok (q x)) :
    filterExcept p l = .ok (l.filter q) := by
  induction l with
  | nil => rfl
  | cons x xs ih =>
    have hx : p x = .ok (q x) := h x (List.mem_cons_self x xs)
    have hxs : filterExcept p xs = .ok (xs.filter q) :=
      ih (fun y hy => h y (List.mem_cons_of_mem x hy))
    simp [filterExcept, hx, hxs, List.filter_cons]

theorem filterExcept_error_head {α : Type} (p : α → Except String Bool)
    (x : α) (xs : List α) (e : String) (h : p x = .error e) :
    filterExcept p (x :: xs) = .error e := by
  simp [filterExcept, h]

/-- C1: on a session bound to tenant `T`, every RLS-filtered query over a
tenant-scoped table (jobs, orders, tenant_person, person, inventory_items,
assets, machines) returns only rows of tenant `T`, hence no row of any
other tenant `T'`; the child tables without a `tenant_id` column
(order_items, person) return only rows whose parent lies in the
already-filtered parent set, which belongs to `T`. -/
theorem rls_tenant_isolation
    (T T' : UUID) (hne : T' ≠ T)
    (jobs : List JobsRow) (orders : List OrdersRow)
    (oitems : List OrderItemsRow) (tps : List TenantPersonRow)
    (persons : List PersonRow) (invs : List InventoryItemsRow)
    (assets : List AssetsRow) (machines : List MachinesRow) :
    (∀ r ∈ query_jobs (.uuid T) jobs, r.tenant_id ≠ T') ∧
    (∀ r ∈ query_orders (.uuid T) orders, r.tenant_id ≠ T') ∧
    (∀ r ∈ query_tenant_person (.uuid T) tps, r.tenant_id ≠ T') ∧
    (∀ l, query_inventory_items (.uuid T) invs = .ok l →
      ∀ r ∈ l, r.tenant_id ≠ T') ∧
    (∀ r ∈ query_assets (.uuid T) assets, r.tenant_id ≠ T') ∧
    (∀ r ∈ query_machines (.uuid T) machines, r.tenant_id ≠ T') ∧
    (∀ r ∈ query_order_items (.uuid T) orders oitems,
      ∃ o ∈ orders, o.id = r.order_id ∧ o.tenant_id = T ∧ o.tenant_id ≠ T') ∧
    (∀ p ∈ query_person (.uuid T) tps persons,
      ∃ m ∈ tps, m.person_id = p.id ∧ m.tenant_id = T ∧ m.tenant_id ≠ T') := by
  have hpol : ∀ tid : UUID, tenantIsolationPolicy (.uuid T) tid = true → tid = T := by
    intro tid h
    simpa [tenantIsolationPolicy_uuid] using h
  refine ⟨?_, ?_, ?_, ?_, ?_, ?_, ?_, ?_⟩
  · intro r hr
    have h3 := hpol _ (List.mem_filter.mp hr).2
    rw [h3]
    exact Ne.symm hne
  · intro r hr
    have h3 := hpol _ (List.mem_filter.mp hr).2
    rw [h3]
    exact Ne.symm hne
  · intro r hr
    have h3 := hpol _ (List.mem_filter.mp hr).2
    rw [h3]
    exact Ne.symm hne
  · intro l hl r hr
    unfold query_inventory_items at hl
    have heq : filterExcept (fun r : InventoryItemsRow =>
        inlineTenantPolicy (SessionVar.uuid T) r.tenant_id) invs =
        .ok (invs.filter (fun r => decide (r.tenant_id = T))) :=
      filterExcept_eq_filter _ _ invs (fun x _ => rfl)
    rw [heq] at hl
    have hle := Except.ok.inj hl
    rw [← hle] at hr
    have h3 : r.tenant_id = T := by
      simpa using (List.mem_filter.mp hr).2
    rw [h3]
    exact Ne.symm hne
  · intro r hr
    have h3 := hpol _ (List.mem_filter.mp hr).2
    rw [h3]
    exact Ne.symm hne
  · intro r hr
    have h3 := hpol _ (List.mem_filter.mp hr).2
    rw [h3]
    exact Ne.symm hne
  · intro r hr
    have hany := (List.mem_filter.mp hr).2
    rw [List.any_eq_true] at hany
    obtain ⟨o, ho, hid⟩ := hany
    have hom := List.mem_filter.mp ho
    have hot := hpol _ hom.2
    refine ⟨o, hom.1, by simpa using hid, hot, ?_⟩
    rw [hot]
    exact Ne.symm hne
  · intro p hp
    have hany := (List.mem_filter.mp hp).2
    rw [List.any_eq_true] at hany
    obtain ⟨m, hm, hid⟩ := hany
    have hmm := List.mem_filter.mp hm
    have hmt := hpol _ hmm.2
    refine ⟨m, hmm.1, by simpa using hid, hmt, ?_⟩
    rw [hmt]
    exact Ne.symm hne

/-- Witness for `rls_tenant_isolation` at concrete tenants and tables. -/
theorem rls_tenant_isolation_witness :
    (∀ r ∈ query_jobs (.uuid 1) [JobsRow.mk 10 1, JobsRow.mk 11 2], r.tenant_id ≠ 2) ∧
    (∀ r ∈ query_orders (.uuid 1) [OrdersRow.mk 20 1], r.tenant_id ≠ 2) ∧
    (∀ r ∈ query_tenant_person (.uuid 1)
      [TenantPersonRow.mk 30 5 1 .internal true], r.tenant_id ≠ 2) ∧
    (∀ l, query_inventory_items (.uuid 1) [InventoryItemsRow.mk 40 2] = .ok l →
      ∀ r ∈ l, r.tenant_id ≠ 2) ∧
    (∀ r ∈ query_assets (.uuid 1) [AssetsRow.mk 50 1], r.tenant_id ≠ 2) ∧
    (∀ r ∈ query_machines (.uuid 1) [MachinesRow.mk 60 1], r.tenant_id ≠ 2) ∧
    (∀ r ∈ query_order_items (.uuid 1) [OrdersRow.mk 20 1]
      [OrderItemsRow.mk 70 20],
      ∃ o ∈ [OrdersRow.mk 20 1], o.id = r.order_id ∧ o.tenant_id = 1 ∧ o.tenant_id ≠ 2) ∧
    (∀ p ∈ query_person (.uuid 1) [TenantPersonRow.mk 30 5 1 .internal true]
      [PersonRow.mk 5 "a"],
      ∃ m ∈ [TenantPersonRow.mk 30 5 1 .internal true],
        m.person_id = p.id ∧ m.tenant_id = 1 ∧ m.tenant_id ≠ 2) :=
  rls_tenant_isolation 1 2 (by decide)
    [JobsRow.mk 10 1, JobsRow.mk 11 2] [OrdersRow.mk 20 1]
    [OrderItemsRow.mk 70 20] [TenantPersonRow.mk 30 5 1 .internal true]
    [PersonRow.mk 5 "a"] [InventoryItemsRow.mk 40 2]
    [AssetsRow.mk 50 1] [MachinesRow.mk 60 1]

/-- C4 counterexample: on a session whose `app.current_tenant_id` holds a
malformed (non-UUID) value, the inline policy of `inventory_items` raises
the uuid-cast error instead of returning an empty result set, refuting the
claim as stated for that tenant-scoped table. -/
theorem query_inventory_items_malformed_raises :
    query_inventory_items (.malformed "not-a-uuid")
      [InventoryItemsRow.mk 40 2] = .error (uuidCastError "not-a-uuid") ∧
    query_inventory_items (.malformed "not-a-uuid")
      [InventoryItemsRow.mk 40 2] ≠ .ok [] := by
  refine ⟨rfl, ?_⟩
  intro h
  rw [(rfl : query_inventory_items (.malformed "not-a-uuid")
    [InventoryItemsRow.mk 40 2] = .error (uuidCastError "not-a-uuid"))] at h
  exact Except.noConfusion h

/-- C4 (amended): with no bound tenant context (session variable unset or
malformed) `get_current_tenant_id` returns NULL and the predicate
`tenant_id = NULL` holds of no row, so every tenant-scoped table whose
policy calls `get_current_tenant_id()` (jobs, orders, order_items,
tenant_person, person, assets, machines, token_blacklist) returns the
empty result set rather than an error.  The two tables whose policies
inline the `::uuid` cast without the exception handler (inventory_items,
item_bom) return the empty set on an unset session variable, but on a
malformed value the cast raises the uuid-cast error as soon as a row is
scanned. -/
theorem rls_unbound_session_empty
    (sess : SessionVar) (hnone : get_current_tenant_id sess = none)
    (jobs : List JobsRow) (orders : List OrdersRow)
    (oitems : List OrderItemsRow) (tps : List TenantPersonRow)
    (persons : List PersonRow) (invs : List InventoryItemsRow)
    (ibs : List ItemBomRow)
    (assets : List AssetsRow) (machines : List MachinesRow)
    (bl : List TokenBlacklistRow) :
    get_current_tenant_id .unset = none ∧
    (∀ raw, get_current_tenant_id (.malformed raw) = none) ∧
    (∀ tid, tenantIsolationPolicy sess tid = false) ∧
    query_jobs sess jobs = [] ∧
    query_orders sess orders = [] ∧
    query_order_items sess orders oitems = [] ∧
    query_tenant_person sess tps = [] ∧
    query_person sess tps persons = [] ∧
    query_assets sess assets = [] ∧
    query_machines sess machines = [] ∧
    query_token_blacklist sess bl = [] ∧
    query_inventory_items .unset invs = .ok [] ∧
    query_item_bom .unset ibs = .ok [] ∧
    (∀ raw r rest, query_inventory_items (.malformed raw) (r :: rest) =
      .error (uuidCastError raw)) ∧
    (∀ raw r rest, query_item_bom (.malformed raw) (r :: rest) =
      .error (uuidCastError raw)) := by
  have hpol : ∀ tid, tenantIsolationPolicy sess tid = false :=
    fun tid => tenantIsolationPolicy_none hnone tid
  refine ⟨rfl, fun _ => rfl, hpol, ?_, ?_, ?_, ?_, ?_, ?_, ?_, ?_, ?_, ?_, ?_, ?_⟩
  · simp [query_jobs, List.filter_eq_nil_iff, hpol]
  · simp [query_orders, List.filter_eq_nil_iff, hpol]
  · simp [query_order_items, List.filter_eq_nil_iff, hpol]
  · simp [query_tenant_person, List.filter_eq_nil_iff, hpol]
  · simp [query_person, List.filter_eq_nil_iff, hpol]
  · simp [query_assets, List.filter_eq_nil_iff, hpol]
  · simp [query_machines, List.filter_eq_nil_iff, hpol]
  · simp [query_token_blacklist, List.filter_eq_nil_iff, hpol]
  · have heq : filterExcept (fun r : InventoryItemsRow =>
        inlineTenantPolicy .unset r.tenant_id) invs =
        .ok (invs.filter (fun _ => false)) :=
      filterExcept_eq_filter _ _ invs (fun x _ => rfl)
    unfold query_inventory_items
    rw [heq]
    simp
  · have heq : filterExcept (fun r : ItemBomRow =>
        inlineTenantPolicy .unset r.tenant_id) ibs =
        .ok (ibs.filter (fun _ => false)) :=
      filterExcept_eq_filter _ _ ibs (fun x _ => rfl)
    unfold query_item_bom
    rw [heq]
    simp
  · intro raw r rest
    exact filterExcept_error_head _ _ _ _ rfl
  · intro raw r rest
    exact filterExcept_error_head _ _ _ _ rfl

/-- Witness for `rls_unbound_session_empty` on the unset session. -/
theorem rls_unbound_session_empty_witness :
    get_current_tenant_id .unset = none ∧
    (∀ raw, get_current_tenant_id (.malformed raw) = none) ∧
    (∀ tid, tenantIsolationPolicy .unset tid = false) ∧
    query_jobs .unset [JobsRow.mk 10 1] = [] ∧
    query_orders .unset [OrdersRow.mk 20 1] = [] ∧
    query_order_items .unset [OrdersRow.mk 20 1] [OrderItemsRow.mk 70 20] = [] ∧
    query_tenant_person .unset [TenantPersonRow.mk 30 5 1 .internal true] = [] ∧
    query_person .unset [TenantPersonRow.mk 30 5 1 .internal true]
      [PersonRow.mk 5 "a"] = [] ∧
    query_assets .unset [AssetsRow.mk 50 1] = [] ∧
    query_machines .unset [MachinesRow.mk 60 1] = [] ∧
    query_token_blacklist .unset [TokenBlacklistRow.mk 80 99 .access 5 1 100] = [] ∧
    query_inventory_items .unset [InventoryItemsRow.mk 40 2] = .ok [] ∧
    query_item_bom .unset [ItemBomRow.mk 45 2] = .ok [] ∧
    (∀ raw r rest, query_inventory_items (.malformed raw) (r :: rest) =
      .error (uuidCastError raw)) ∧
    (∀ raw r rest, query_item_bom (.malformed raw) (r :: rest) =
      .error (uuidCastError raw)) :=
  rls_unbound_session_empty .unset rfl
    [JobsRow.mk 10 1] [OrdersRow.mk 20 1] [OrderItemsRow.mk 70 20]
    [TenantPersonRow.mk 30 5 1 .internal true] [PersonRow.mk 5 "a"]
    [InventoryItemsRow.mk 40 2] [ItemBomRow.mk 45 2]
    [AssetsRow.mk 50 1] [MachinesRow.mk 60 1]
    [TokenBlacklistRow.mk 80 99 .access 5 1 100]

/-- JWT claims carried by an access or refresh token (§3 of the spec):
subject (person id), tenant id (nullable until a tenant is selected),
role, issued-at, expires-at, and the declared token type. -/
structure Claims where
  sub : UUID
  tenant_id : Option UUID
  role : Option Role
  iat : Nat
  exp : Nat
  token_type : TokenType
deriving DecidableEq, Repr

/-- A presented bearer token: its claims, whether its signature (and
structure) verifies against the server secret, and the hash of its
serialized form (the blacklist stores hashes, never raw tokens). -/
structure Token where
  claims : Claims
  sig_valid : Bool
  token_hash : Nat
deriving DecidableEq, Repr

/-- TokenError taxonomy (§7 of the spec). -/
inductive TokenError where
  | Malformed : TokenError
  | Expired : TokenError
  | WrongType : TokenError
  | Revoked : TokenError
deriving DecidableEq, Repr

/-- Modelled from the spec: `validate(token, expectedType)` (§4.2); the
Rust server source is not in the repository snapshot.  The four mandatory
ordered checks: (1) signature / well-formedness → `Malformed`;
(2) `exp` > now → `Expired`; (3) declared type matches expected →
`WrongType`; (4) token hash present in the blacklist scoped by
(hash, type) → `Revoked`; otherwise the claims are returned. -/
def validate (bl : List TokenBlacklistRow) (now : Nat) (tok : Token)
    (expected : TokenType) : Except TokenError Claims :=
  if !tok.sig_valid then .error .Malformed
  else if !(decide (now < tok.claims.exp)) then .error .Expired
  else if tok.claims.token_type ≠ expected then .error .WrongType
  else if bl.any (fun r =>
      decide (r.token_hash = tok.token_hash ∧ r.token_type = tok.claims.token_type)) then
    .error .Revoked
  else .ok tok.claims

/-- C2: a token whose revocation record (its hash, scoped by its type) is
present in the blacklist and whose natural expiry has not passed is
rejected by `validate` for every expected type — regardless of whether its
signature is valid. -/
theorem validate_rejects_blacklisted
    (bl : List TokenBlacklistRow) (now : Nat) (tok : Token)
    (hmem : ∃ r ∈ bl, r.token_hash = tok.token_hash ∧
      r.token_type = tok.claims.token_type)
    (hexp : now < tok.claims.exp) :
    ∀ expected : TokenType, ∃ e, validate bl now tok expected = .error e := by
  intro expected
  unfold validate
  by_cases hsig : tok.sig_valid
  · simp only [hsig, Bool.not_true, Bool.false_eq_true, if_false]
    rw [if_neg (by simpa using hexp)]
    by_cases hty : tok.claims.token_type = expected
    · rw [if_neg (by simpa using hty)]
      rw [if_pos]
      · exact ⟨.Revoked, rfl⟩
      · rw [List.any_eq_true]
        obtain ⟨r, hr, h1, h2⟩ := hmem
        exact ⟨r, hr, by simp [h1, h2]⟩
    · rw [if_pos (by simpa using hty)]
      exact ⟨.WrongType, rfl⟩
  · rw [if_pos (by simpa using hsig)]
    exact ⟨.Malformed, rfl⟩

/-- Witness for `validate_rejects_blacklisted`: a signature-valid,
unexpired access token whose hash is blacklisted. -/
theorem validate_rejects_blacklisted_witness :
    ∃ e, validate [TokenBlacklistRow.mk 80 99 .access 5 1 100] 50
      (Token.mk (Claims.mk 5 (some 1) (some .internal) 0 100 .access) true 99)
      .access = .error e :=
  validate_rejects_blacklisted
    [TokenBlacklistRow.mk 80 99 .access 5 1 100] 50
    (Token.mk (Claims.mk 5 (some 1) (some .internal) 0 100 .access) true 99)
    ⟨TokenBlacklistRow.mk 80 99 .access 5 1 100, by simp, rfl, rfl⟩
    (by decide) .access

/-- The blacklist record `revoke` inserts for a token (§3, §4.5 of the
spec, and the `token_blacklist` column list): the token's hash, its
declared type, the owning person and tenant, and the token's own expiry. -/
def blacklistRecordOf (tok : Token) (personId tenantId rid : UUID) :
    TokenBlacklistRow :=
  ⟨rid, tok.token_hash, tok.claims.token_type, personId, tenantId, tok.claims.exp⟩

/-- Insert into `token_blacklist` honouring the `token_hash` UNIQUE
constraint with do-nothing conflict handling: a record whose hash is
already present is not inserted and no error is raised. -/
def insertIfAbsent (bl : List TokenBlacklistRow) (r : TokenBlacklistRow) :
    List TokenBlacklistRow :=
  if bl.any (fun x => decide (x.token_hash = r.token_hash)) then bl
  else bl ++ [r]

/-- Modelled from the spec: `revoke(accessToken, refreshToken)` ("logout",
§4.1); the Rust server source is not in the repository snapshot.  Inserts
blacklist records for both tokens keyed by their hashes, type, person and
tenant; idempotent — revoking an already-revoked token is a no-op, not an
error (the operation is total; it never fails). -/
def revoke (bl : List TokenBlacklistRow) (accessTok refreshTok : Token)
    (personId tenantId rid1 rid2 : UUID) : List TokenBlacklistRow :=
  insertIfAbsent
    (insertIfAbsent bl (blacklistRecordOf accessTok personId tenantId rid1))
    (blacklistRecordOf refreshTok personId tenantId rid2)

theorem insertIfAbsent_of_mem (bl : List TokenBlacklistRow)
    (r : TokenBlacklistRow)
    (h : ∃ x ∈ bl, x.token_hash = r.token_hash) :
    insertIfAbsent bl r = bl := by
  unfold insertIfAbsent
  rw [if_pos]
  rw [List.any_eq_true]
  obtain ⟨x, hx, hh⟩ := h
  exact ⟨x, hx, by simp [hh]⟩

theorem mem_hash_insertIfAbsent (bl : List TokenBlacklistRow)
    (r : TokenBlacklistRow) :
    ∃ x ∈ insertIfAbsent bl r, x.token_hash = r.token_hash := by
  unfold insertIfAbsent
  by_cases h : bl.any (fun x => decide (x.token_hash = r.token_hash)) = true
  · rw [if_pos h]
    rw [List.any_eq_true] at h
    obtain ⟨x, hx, hh⟩ := h
    exact ⟨x, hx, by simpa using hh⟩
  · rw [if_neg h]
    exact ⟨r, by simp, rfl⟩

theorem mem_hash_insertIfAbsent_mono (bl : List TokenBlacklistRow)
    (r y : TokenBlacklistRow)
    (h : ∃ x ∈ bl, x.token_hash = y.token_hash) :
    ∃ x ∈ insertIfAbsent bl r, x.token_hash = y.token_hash := by
  unfold insertIfAbsent
  obtain ⟨x, hx, hh⟩ := h
  by_cases hc : bl.any (fun x => decide (x.token_hash = r.token_hash)) = true
  · rw [if_pos hc]; exact ⟨x, hx, hh⟩
  · rw [if_neg hc]; exact ⟨x, by simp [hx], hh⟩

/-- C8: `revoke` (logout) is idempotent.  Calling it again on tokens whose
hashes are already blacklisted — in particular immediately after a first
`revoke` of the same token pair, even with fresh row ids — is a no-op: the
blacklist state after the second call equals the state after the first,
and no error is possible since `revoke` is a total function. -/
theorem revoke_idempotent
    (bl : List TokenBlacklistRow) (accessTok refreshTok : Token)
    (p t i1 i2 p' t' i3 i4 : UUID) :
    (revoke (revoke bl accessTok refreshTok p t i1 i2)
      accessTok refreshTok p' t' i3 i4 =
      revoke bl accessTok refreshTok p t i1 i2) ∧
    ((∃ x ∈ bl, x.token_hash = accessTok.token_hash) →
      (∃ x ∈ bl, x.token_hash = refreshTok.token_hash) →
      revoke bl accessTok refreshTok p t i1 i2 = bl) := by
  refine ⟨?_, ?_⟩
  swap
  · intro ha hr
    unfold revoke
    have h1 : insertIfAbsent bl (blacklistRecordOf accessTok p t i1) = bl :=
      insertIfAbsent_of_mem _ _ (by simpa [blacklistRecordOf] using ha)
    rw [h1]
    exact insertIfAbsent_of_mem _ _ (by simpa [blacklistRecordOf] using hr)
  set bl1 := revoke bl accessTok refreshTok p t i1 i2 with hbl1
  have haccess : ∃ x ∈ bl1, x.token_hash = accessTok.token_hash := by
    rw [hbl1]
    unfold revoke
    exact mem_hash_insertIfAbsent_mono _ _ _
      (mem_hash_insertIfAbsent bl (blacklistRecordOf accessTok p t i1))
  have hrefresh : ∃ x ∈ bl1, x.token_hash = refreshTok.token_hash := by
    rw [hbl1]
    unfold revoke
    exact mem_hash_insertIfAbsent _ _
  unfold revoke
  have h1 : insertIfAbsent bl1 (blacklistRecordOf accessTok p' t' i3) = bl1 :=
    insertIfAbsent_of_mem _ _ (by simpa [blacklistRecordOf] using haccess)
  rw [h1]
  exact insertIfAbsent_of_mem _ _ (by simpa [blacklistRecordOf] using hrefresh)

/-- Witness for `revoke_idempotent`: a concrete blacklist already holding
both token hashes. -/
theorem revoke_idempotent_witness :
    (revoke (revoke [TokenBlacklistRow.mk 80 99 .access 5 1 100]
        (Token.mk (Claims.mk 5 (some 1) (some .internal) 0 100 .access) true 99)
        (Token.mk (Claims.mk 5 (some 1) (some .internal) 0 200 .refresh) true 7)
        5 1 81 82)
      (Token.mk (Claims.mk 5 (some 1) (some .internal) 0 100 .access) true 99)
      (Token.mk (Claims.mk 5 (some 1) (some .internal) 0 200 .refresh) true 7)
      5 1 83 84 =
      revoke [TokenBlacklistRow.mk 80 99 .access 5 1 100]
        (Token.mk (Claims.mk 5 (some 1) (some .internal) 0 100 .access) true 99)
        (Token.mk (Claims.mk 5 (some 1) (some .internal) 0 200 .refresh) true 7)
        5 1 81 82) ∧
    ((∃ x ∈ [TokenBlacklistRow.mk 80 99 .access 5 1 100],
        x.token_hash = (Token.mk (Claims.mk 5 (some 1) (some .internal) 0 100
          .access) true 99).token_hash) →
      (∃ x ∈ [TokenBlacklistRow.mk 80 99 .access 5 1 100],
        x.token_hash = (Token.mk (Claims.mk 5 (some 1) (some .internal) 0 200
          .refresh) true 7).token_hash) →
      revoke [TokenBlacklistRow.mk 80 99 .access 5 1 100]
        (Token.mk (Claims.mk 5 (some 1) (some .internal) 0 100 .access) true 99)
        (Token.mk (Claims.mk 5 (some 1) (some .internal) 0 200 .refresh) true 7)
        5 1 81 82 = [TokenBlacklistRow.mk 80 99 .access 5 1 100]) :=
  revoke_idempotent [TokenBlacklistRow.mk 80 99 .access 5 1 100]
    (Token.mk (Claims.mk 5 (some 1) (some .internal) 0 100 .access) true 99)
    (Token.mk (Claims.mk 5 (some 1) (some .internal) 0 200 .refresh) true 7)
    5 1 81 82 5 1 83 84

/-- `public.cleanup_expired_tokens()` from the token-blacklist migration:
`DELETE FROM token_blacklist WHERE expires_at < NOW()`; returns the table
after the delete together with the reported deleted row count. -/
def cleanup_expired_tokens (bl : List TokenBlacklistRow) (now : Nat) :
    List TokenBlacklistRow × Nat :=
  (bl.filter (fun r => !(decide (r.expires_at < now))),
   (bl.filter (fun r => decide (r.expires_at < now))).length)

/-- C9: purging past-expiry blacklist records never changes the outcome of
`validate`, for blacklists whose records carry the expiry of the token
they hash (as the records created by `revoke` do): an expired token is
already rejected by the expiry check before the blacklist is consulted,
and an unexpired token's record is never purged. -/
theorem validate_cleanup_eq
    (bl : List TokenBlacklistRow) (now : Nat) (tok : Token)
    (expected : TokenType)
    (hwf : ∀ r ∈ bl, r.token_hash = tok.token_hash →
      r.expires_at = tok.claims.exp) :
    validate (cleanup_expired_tokens bl now).1 now tok expected =
      validate bl now tok expected := by
  by_cases hexp : now < tok.claims.exp
  · have hany :
            ((bl.filter (fun r => !(decide (r.expires_at < now)))).any
              (fun r => decide (r.token_hash = tok.token_hash ∧
                r.token_type = tok.claims.token_type))) =
            (bl.any (fun r => decide (r.token_hash = tok.token_hash ∧
                r.token_type = tok.claims.token_type))) := by
          rcases hb : bl.any (fun r => decide (r.token_hash = tok.token_hash ∧
              r.token_type = tok.claims.token_type)) with _ | _
          · rw [List.any_eq_false] at hb ⊢
            intro r hr
            exact hb r (List.mem_filter.mp hr).1
          · rw [List.any_eq_true] at hb ⊢
            obtain ⟨r, hr, hp⟩ := hb
            refine ⟨r, List.mem_filter.mpr ⟨hr, ?_⟩, hp⟩
            have hh : r.token_hash = tok.token_hash := by
              have := of_decide_eq_true hp
              exact this.1
            have := hwf r hr hh
            simp only [Bool.not_eq_true', decide_eq_false_iff_not]
            rw [this]
            omega
    unfold validate cleanup_expired_tokens
    rw [hany]
  · unfold validate cleanup_expired_tokens
    simp [hexp]

/-- Witness for `validate_cleanup_eq`: a blacklist holding one live record
for the queried token and one stale record for another token. -/
theorem validate_cleanup_eq_witness :
    validate (cleanup_expired_tokens
        [TokenBlacklistRow.mk 80 99 .access 5 1 100,
         TokenBlacklistRow.mk 81 7 .refresh 5 1 10] 50).1 50
      (Token.mk (Claims.mk 5 (some 1) (some .internal) 0 100 .access) true 99)
      .access =
    validate
      [TokenBlacklistRow.mk 80 99 .access 5 1 100,
       TokenBlacklistRow.mk 81 7 .refresh 5 1 10] 50
      (Token.mk (Claims.mk 5 (some 1) (some .internal) 0 100 .access) true 99)
      .access :=
  validate_cleanup_eq
    [TokenBlacklistRow.mk 80 99 .access 5 1 100,
     TokenBlacklistRow.mk 81 7 .refresh 5 1 10] 50
    (Token.mk (Claims.mk 5 (some 1) (some .internal) 0 100 .access) true 99)
    .access (by decide)

/-- TenantError taxonomy (§7 of the spec). -/
inductive TenantError where
  | NotFound : TenantError
  | Inactive : TenantError
  | NoTenantSelected : TenantError
  | TenantMismatch : TenantError
  | AlreadyMember : TenantError
  | SubdomainTaken : TenantError
deriving DecidableEq, Repr

/-- Modelled from the spec: `resolveContext(claims, requestTenantHeader)`
(§4.3); the Rust server source is not in the repository snapshot.  If
`claims.tenant_id` is present it is authoritative and a present header
must match it exactly (`TenantMismatch` otherwise); if it is absent the
request has no tenant context (`NoTenantSelected`). -/
def resolveContext (claims : Claims) (header : Option UUID) :
    Except TenantError UUID :=
  match claims.tenant_id with
  | some t =>
    match header with
    | some h => if h = t then .ok t else .error .TenantMismatch
    | none => .ok t
  | none => .error .NoTenantSelected

/-- The two endpoint classes of the request path (§4.3, §6): tenant-scoped
endpoints require a resolved tenant context; membership/tenant-selection
endpoints do not. -/
inductive EndpointClass where
  | tenantScoped : EndpointClass
  | membership : EndpointClass
deriving DecidableEq, Repr

/-- Modelled from the spec: request dispatch (§4.3).  A membership or
tenant-selection endpoint is served without binding a tenant; a
tenant-scoped endpoint first resolves the tenant context and serves data
only under the resolved tenant id. -/
def handleRequest (claims : Claims) (header : Option UUID)
    (ep : EndpointClass) : Except TenantError (Option UUID) :=
  match ep with
  | .membership => .ok none
  | .tenantScoped => (resolveContext claims header).map some

/-- C3: a header differing from the token's bound tenant fails with
`TenantMismatch` and no request is served under either tenant; a token
with no bound tenant fails every tenant-scoped endpoint with
`NoTenantSelected` while membership endpoints stay reachable. -/
theorem resolveContext_spec (claims : Claims) (header : Option UUID) :
    (∀ t h, claims.tenant_id = some t → header = some h → h ≠ t →
      resolveContext claims header = .error .TenantMismatch ∧
      (∀ ep, handleRequest claims header ep ≠ .ok (some t) ∧
        handleRequest claims header ep ≠ .ok (some h))) ∧
    (claims.tenant_id = none →
      handleRequest claims header .tenantScoped = .error .NoTenantSelected ∧
      handleRequest claims header .membership = .ok none) := by
  constructor
  · intro t h hct hh hne
    have hres : resolveContext claims header = .error .TenantMismatch := by
      unfold resolveContext
      rw [hct, hh]
      simp [hne]
    refine ⟨hres, ?_⟩
    intro ep
    cases ep
    · constructor <;> simp [handleRequest, hres, Except.map]
    · constructor <;> simp [handleRequest]
  · intro hct
    have hres : resolveContext claims header = .error .NoTenantSelected := by
      unfold resolveContext
      rw [hct]
    exact ⟨by simp [handleRequest, hres, Except.map], rfl⟩

/-- Witness for `resolveContext_spec`: token bound to tenant 1, header
naming tenant 2; and a pending person's token with no tenant. -/
theorem resolveContext_spec_witness :
    ((∀ t h, (Claims.mk 5 (some 1) (some .internal) 0 100 .access).tenant_id = some t →
      (some 2 : Option UUID) = some h → h ≠ t →
      resolveContext (Claims.mk 5 (some 1) (some .internal) 0 100 .access) (some 2) =
        .error .TenantMismatch ∧
      (∀ ep, handleRequest (Claims.mk 5 (some 1) (some .internal) 0 100 .access)
          (some 2) ep ≠ .ok (some t) ∧
        handleRequest (Claims.mk 5 (some 1) (some .internal) 0 100 .access)
          (some 2) ep ≠ .ok (some h))) ∧
    ((Claims.mk 5 (some 1) (some .internal) 0 100 .access).tenant_id = none →
      handleRequest (Claims.mk 5 (some 1) (some .internal) 0 100 .access)
        (some 2) .tenantScoped = .error .NoTenantSelected ∧
      handleRequest (Claims.mk 5 (some 1) (some .internal) 0 100 .access)
        (some 2) .membership = .ok none)) ∧
    ((∀ t h, (Claims.mk 5 none none 0 100 .access).tenant_id = some t →
      (none : Option UUID) = some h → h ≠ t →
      resolveContext (Claims.mk 5 none none 0 100 .access) none =
        .error .TenantMismatch ∧
      (∀ ep, handleRequest (Claims.mk 5 none none 0 100 .access) none ep ≠ .ok (some t) ∧
        handleRequest (Claims.mk 5 none none 0 100 .access) none ep ≠ .ok (some h))) ∧
    ((Claims.mk 5 none none 0 100 .access).tenant_id = none →
      handleRequest (Claims.mk 5 none none 0 100 .access) none .tenantScoped =
        .error .NoTenantSelected ∧
      handleRequest (Claims.mk 5 none none 0 100 .access) none .membership =
        .ok none)) :=
  ⟨resolveContext_spec (Claims.mk 5 (some 1) (some .internal) 0 100 .access) (some 2),
   resolveContext_spec (Claims.mk 5 none none 0 100 .access) none⟩

/-- The membership-store state: the `tenants` and `tenant_person` tables. -/
structure DB where
  tenants : List TenantRow
  memberships : List TenantPersonRow
deriving DecidableEq, Repr

/-- Modelled from the spec: `joinTenant(personId, subdomain)` (§4.5); the
Rust server source is not in the repository snapshot.  Resolves the tenant
by subdomain (`TenantNotFound`), checks it is active (`TenantInactive`),
checks no existing membership for (person, tenant, inferred role) —
enforced in the schema by `UNIQUE(person_id, tenant_id, role)` on
`tenant_person` — failing `AlreadyMember`, then inserts the membership
row.  The client error mapping in `authService.ts` `joinTenant` surfaces
exactly these cases (404 / 403 / 409). -/
def joinTenant (db : DB) (personId : UUID) (subdomain : String) (role : Role)
    (newId : UUID) (isPrimary : Bool) :
    Except TenantError (DB × TenantPersonRow) :=
  match db.tenants.find? (fun t => decide (t.subdomain = subdomain)) with
  | none => .error .NotFound
  | some t =>
    if !t.is_active then .error .Inactive
    else if db.memberships.any (fun m =>
        decide (m.person_id = personId ∧ m.tenant_id = t.id ∧ m.role = role)) then
      .error .AlreadyMember
    else
      let m : TenantPersonRow := ⟨newId, personId, t.id, role, isPrimary⟩
      .ok ({ db with memberships := db.memberships ++ [m] }, m)

/-- Number of `tenant_person` rows for a (person_id, tenant_id, role)
triple — the key of the schema's `UNIQUE(person_id, tenant_id, role)`. -/
def membershipCount (db : DB) (p t : UUID) (role : Role) : Nat :=
  (db.memberships.filter (fun m =>
    decide (m.person_id = p ∧ m.tenant_id = t ∧ m.role = role))).length

/-- The schema invariant `UNIQUE(person_id, tenant_id, role)` of
`tenant_person`: at most one membership row per triple. -/
def membershipUnique (db : DB) : Prop :=
  ∀ p t role, membershipCount db p t role ≤ 1

/-- C5: after a successful `joinTenant`, repeating it for the same person,
subdomain and role fails with `AlreadyMember` (for any fresh row id), the
new state holds exactly one membership row for the triple, and the
`UNIQUE(person_id, tenant_id, role)` invariant is preserved. -/
theorem joinTenant_idempotent_safe
    (db : DB) (personId : UUID) (subdomain : String) (role : Role)
    (id1 : UUID) (prim : Bool) (db' : DB) (m : TenantPersonRow)
    (h1 : joinTenant db personId subdomain role id1 prim = .ok (db', m)) :
    (∀ id2 prim2, joinTenant db' personId subdomain role id2 prim2 =
      .error .AlreadyMember) ∧
    membershipCount db' personId m.tenant_id role = 1 ∧
    (membershipUnique db → membershipUnique db') := by
  unfold joinTenant at h1
  rcases hfind : db.tenants.find? (fun t => decide (t.subdomain = subdomain)) with
    _ | t
  · simp only [hfind] at h1
    exact absurd h1 (by simp)
  simp only [hfind] at h1
  by_cases hact : t.is_active
  swap
  · rw [if_pos (by simpa using hact)] at h1; exact absurd h1 (by simp)
  rw [if_neg (by simpa using hact)] at h1
  by_cases hmem : db.memberships.any (fun m =>
      decide (m.person_id = personId ∧ m.tenant_id = t.id ∧ m.role = role)) = true
  · rw [if_pos hmem] at h1; exact absurd h1 (by simp)
  rw [if_neg hmem] at h1
  have hdb' : db' = { db with memberships :=
      db.memberships ++ [⟨id1, personId, t.id, role, prim⟩] } := by
    have := h1
    simp only [Except.ok.injEq, Prod.mk.injEq] at this
    exact this.1.symm
  have hm : m = ⟨id1, personId, t.id, role, prim⟩ := by
    have := h1
    simp only [Except.ok.injEq, Prod.mk.injEq] at this
    exact this.2.symm
  have hmemF := hmem
  rw [List.any_eq_true] at hmemF
  push_neg at hmemF
  refine ⟨?_, ?_, ?_⟩
  · intro id2 prim2
    unfold joinTenant
    have hfind' : db'.tenants.find? (fun t => decide (t.subdomain = subdomain)) =
        some t := by
      rw [hdb']
      exact hfind
    simp only [hfind']
    rw [if_neg (by simpa using hact), if_pos]
    rw [List.any_eq_true]
    refine ⟨⟨id1, personId, t.id, role, prim⟩, ?_, by simp⟩
    rw [hdb']
    simp
  · rw [hdb', hm]
    unfold membershipCount
    simp only [List.filter_append]
    rw [List.length_append]
    have hz : (db.memberships.filter (fun x =>
        decide (x.person_id = personId ∧ x.tenant_id = t.id ∧ x.role = role))).length = 0 := by
      rw [List.length_eq_zero]
      rw [List.filter_eq_nil_iff]
      intro a ha
      have := hmemF a ha
      simpa using this
    simp only at hz ⊢
    rw [hz]
    simp
  · intro huniq p' t' role'
    by_cases htr : p' = personId ∧ t' = t.id ∧ role' = role
    · obtain ⟨hp, ht, hr⟩ := htr
      rw [hp, ht, hr, hdb']
      unfold membershipCount
      simp only [List.filter_append, List.length_append]
      have hz : (db.memberships.filter (fun x =>
          decide (x.person_id = personId ∧ x.tenant_id = t.id ∧ x.role = role))).length = 0 := by
        rw [List.length_eq_zero, List.filter_eq_nil_iff]
        intro a ha
        have := hmemF a ha
        simpa using this
      simp only at hz ⊢
      rw [hz]
      simp
    · have hcount : membershipCount db' p' t' role' =
          membershipCount db p' t' role' := by
        rw [hdb']
        unfold membershipCount
        simp only [List.filter_append, List.length_append]
        have hz : (([⟨id1, personId, t.id, role, prim⟩] :
            List TenantPersonRow).filter (fun x =>
            decide (x.person_id = p' ∧ x.tenant_id = t' ∧ x.role = role'))).length = 0 := by
          rw [List.length_eq_zero, List.filter_eq_nil_iff]
          intro a ha
          simp only [List.mem_singleton] at ha
          subst ha
          simp only [decide_eq_true_eq]
          intro hcon
          exact htr ⟨hcon.1.symm ▸ rfl, hcon.2.1.symm ▸ rfl, hcon.2.2.symm ▸ rfl⟩
        simp only at hz ⊢
        rw [hz]
        simp
      rw [hcount]
      exact huniq p' t' role'

/-- Witness for `joinTenant_idempotent_safe`: person 5 joins tenant
`acme` as internal, then attempts to join again. -/
theorem joinTenant_idempotent_safe_witness :
    (∀ id2 prim2, joinTenant
      (DB.mk [TenantRow.mk 1 "Acme" "acme" true]
        [TenantPersonRow.mk 9 5 1 .internal true])
      5 "acme" .internal id2 prim2 = .error .AlreadyMember) ∧
    membershipCount
      (DB.mk [TenantRow.mk 1 "Acme" "acme" true]
        [TenantPersonRow.mk 9 5 1 .internal true])
      5 (TenantPersonRow.mk 9 5 1 .internal true).tenant_id .internal = 1 ∧
    (membershipUnique (DB.mk [TenantRow.mk 1 "Acme" "acme" true] []) →
      membershipUnique (DB.mk [TenantRow.mk 1 "Acme" "acme" true]
        [TenantPersonRow.mk 9 5 1 .internal true])) :=
  joinTenant_idempotent_safe
    (DB.mk [TenantRow.mk 1 "Acme" "acme" true] []) 5 "acme" .internal 9 true
    (DB.mk [TenantRow.mk 1 "Acme" "acme" true]
      [TenantPersonRow.mk 9 5 1 .internal true])
    (TenantPersonRow.mk 9 5 1 .internal true) rfl

/-- Result of `createAndJoinTenant`: on success the updated state with the
new tenant and membership; on `SubdomainTaken` or on a mid-transaction
abort the state is rolled back (the transaction is atomic), so each
outcome carries the observable database state. -/
inductive CreateTenantResult where
  | ok (db : DB) (tenant : TenantRow) (membership : TenantPersonRow) :
      CreateTenantResult
  | subdomainTaken (db : DB) : CreateTenantResult
  | aborted (db : DB) : CreateTenantResult
deriving DecidableEq, Repr

/-- The observable database state of a `createAndJoinTenant` outcome. -/
def CreateTenantResult.state : CreateTenantResult → DB
  | .ok db _ _ => db
  | .subdomainTaken db => db
  | .aborted db => db

/-- Modelled from the spec: `createAndJoinTenant(personId, name,
subdomain)` (§4.5); the Rust server source is not in the repository
snapshot.  The subdomain must be unused (`SubdomainTaken` otherwise); then
the Tenant row and a Membership row with role `internal` and primary flag
true are inserted in one atomic transaction.  The `failMidTxn` flag
injects a failure after the Tenant insert and before the Membership
insert; atomicity means the transaction rolls back, leaving the original
state. -/
def createAndJoinTenant (db : DB) (personId : UUID) (name subdomain : String)
    (tenantId memId : UUID) (failMidTxn : Bool) : CreateTenantResult :=
  if db.tenants.any (fun t => decide (t.subdomain = subdomain)) then
    .subdomainTaken db
  else if failMidTxn then
    .aborted db
  else
    let t : TenantRow := ⟨tenantId, name, subdomain, true⟩
    let m : TenantPersonRow := ⟨memId, personId, tenantId, .internal, true⟩
    .ok ⟨db.tenants ++ [t], db.memberships ++ [m]⟩ t m

/-- C6: `createAndJoinTenant` is atomic.  Starting from a state with no
tenant for the new subdomain, every outcome — success, `SubdomainTaken`,
or a failure injected after the Tenant insert and before the Membership
insert — yields an observable state in which any Tenant row carrying the
new subdomain is accompanied by a Membership row for the creating person
with role `internal` and primary flag true; in particular a mid-transaction
failure leaves no Tenant row behind. -/
theorem createAndJoinTenant_atomic
    (db : DB) (personId : UUID) (name subdomain : String)
    (tenantId memId : UUID) (failMidTxn : Bool)
    (hfresh : ∀ t ∈ db.tenants, t.subdomain ≠ subdomain) :
    (failMidTxn = true →
      (createAndJoinTenant db personId name subdomain tenantId memId
        failMidTxn).state = db) ∧
    (∀ t ∈ (createAndJoinTenant db personId name subdomain tenantId memId
        failMidTxn).state.tenants, t.subdomain = subdomain →
      ∃ m ∈ (createAndJoinTenant db personId name subdomain tenantId memId
        failMidTxn).state.memberships,
        m.person_id = personId ∧ m.tenant_id = t.id ∧
        m.role = .internal ∧ m.is_primary = true) := by
  have hnotaken :
      db.tenants.any (fun t => decide (t.subdomain = subdomain)) = false := by
    rw [List.any_eq_false]
    intro t ht
    simpa using hfresh t ht
  unfold createAndJoinTenant
  rw [hnotaken]
  simp only [Bool.false_eq_true, if_false]
  rcases failMidTxn with _ | _
  · simp only [if_neg (by simp : ¬(false = true))]
    refine ⟨by simp, ?_⟩
    intro t ht hsub
    simp only [CreateTenantResult.state, List.mem_append] at ht ⊢
    rcases ht with ht | ht
    · exact absurd hsub (hfresh t ht)
    · simp only [List.mem_singleton] at ht
      subst ht
      exact ⟨⟨memId, personId, tenantId, .internal, true⟩,
        Or.inr (by simp), rfl, rfl, rfl, rfl⟩
  · simp only [if_pos rfl]
    refine ⟨fun _ => rfl, ?_⟩
    intro t ht hsub
    simp only [CreateTenantResult.state] at ht
    exact absurd hsub (hfresh t ht)

/-- Witness for `createAndJoinTenant_atomic`: person 5 creates tenant
`acme` with a failure injected mid-transaction. -/
theorem createAndJoinTenant_atomic_witness :
    ((true = true →
      (createAndJoinTenant (DB.mk [] []) 5 "Acme" "acme" 1 9 true).state =
        DB.mk [] []) ∧
    (∀ t ∈ (createAndJoinTenant (DB.mk [] []) 5 "Acme" "acme" 1 9
        true).state.tenants, t.subdomain = "acme" →
      ∃ m ∈ (createAndJoinTenant (DB.mk [] []) 5 "Acme" "acme" 1 9
        true).state.memberships,
        m.person_id = 5 ∧ m.tenant_id = t.id ∧
        m.role = .internal ∧ m.is_primary = true)) ∧
    ((false = true →
      (createAndJoinTenant (DB.mk [] []) 5 "Acme" "acme" 1 9 false).state =
        DB.mk [] []) ∧
    (∀ t ∈ (createAndJoinTenant (DB.mk [] []) 5 "Acme" "acme" 1 9
        false).state.tenants, t.subdomain = "acme" →
      ∃ m ∈ (createAndJoinTenant (DB.mk [] []) 5 "Acme" "acme" 1 9
        false).state.memberships,
        m.person_id = 5 ∧ m.tenant_id = t.id ∧
        m.role = .internal ∧ m.is_primary = true)) :=
  ⟨createAndJoinTenant_atomic (DB.mk [] []) 5 "Acme" "acme" 1 9 true
    (by simp),
   createAndJoinTenant_atomic (DB.mk [] []) 5 "Acme" "acme" 1 9 false
    (by simp)⟩

/-- The character class of the subdomain pattern `/^[a-z0-9-]+$/` in
`validateCreateForm` (`TenantSelection.tsx`): ASCII lowercase letters,
digits, or hyphen. -/
def isSubdomainChar (c : Char) : Bool :=
  (97 ≤ c.toNat && c.toNat ≤ 122) || (48 ≤ c.toNat && c.toNat ≤ 57) ||
    c = '-'

/-- The subdomain checks of `validateCreateForm` (`TenantSelection.tsx`):
required (non-empty), at most 50 characters, and matching
`/^[a-z0-9-]+$/`. -/
def validateSubdomain (s : String) : Bool :=
  !s.isEmpty && decide (s.length ≤ 50) && s.data.all isSubdomainChar

/-- Lowercasing a string character-wise — the case-insensitive comparison
key for subdomains. -/
def strToLower (s : String) : String := ⟨s.data.map Char.toLower⟩

theorem toLower_of_subdomainChar (c : Char) (h : isSubdomainChar c = true) :
    c.toLower = c := by
  unfold isSubdomainChar at h
  simp only [Bool.or_eq_true, Bool.and_eq_true, decide_eq_true_eq] at h
  have hn : ¬(65 ≤ c.toNat ∧ c.toNat ≤ 90) := by
    rcases h with (⟨h1, h2⟩ | ⟨h1, h2⟩) | h1
    · omega
    · omega
    · have h45 : c.toNat = 45 := by
        rw [h1]
        decide
      omega
  unfold Char.toLower
  rw [if_neg]
  simp only [Bool.and_eq_true, decide_eq_true_eq, ge_iff_le]
  exact hn

theorem strToLower_of_valid (s : String) (h : validateSubdomain s = true) :
    strToLower s = s := by
  unfold validateSubdomain at h
  simp only [Bool.and_eq_true, List.all_eq_true] at h
  unfold strToLower
  have hmap : s.data.map Char.toLower = s.data := by
    have hchars := h.2
    calc s.data.map Char.toLower = s.data.map id :=
          List.map_congr_left (fun a ha => toLower_of_subdomainChar a (hchars a ha))
      _ = s.data := List.map_id _
  rw [hmap]

/-- C7: subdomain uniqueness is case-insensitive over the accepted
alphabet.  Two subdomains accepted by `validateCreateForm` that agree up
to letter case are identical (the pattern `[a-z0-9-]` admits no uppercase
letter, so lowercasing fixes every accepted subdomain), and
`createAndJoinTenant` on a subdomain that agrees up to case with an
existing tenant's subdomain fails with `SubdomainTaken` and leaves the
state unchanged. -/
theorem subdomain_case_insensitive_unique
    (s t : String) (hs : validateSubdomain s = true)
    (ht : validateSubdomain t = true)
    (hcase : strToLower s = strToLower t) :
    s = t ∧
    ∀ (db : DB) (personId : UUID) (name : String) (tenantId memId : UUID)
      (failMidTxn : Bool), (∃ tr ∈ db.tenants, tr.subdomain = s) →
      createAndJoinTenant db personId name t tenantId memId failMidTxn =
        .subdomainTaken db := by
  have hst : s = t := by
    calc s = strToLower s := (strToLower_of_valid s hs).symm
    _ = strToLower t := hcase
    _ = t := strToLower_of_valid t ht
  refine ⟨hst, ?_⟩
  rintro db personId name tenantId memId failMidTxn ⟨tr, htr, hsub⟩
  unfold createAndJoinTenant
  rw [if_pos]
  rw [List.any_eq_true]
  refine ⟨tr, htr, ?_⟩
  rw [hsub, hst]
  simp

/-- Witness for `subdomain_case_insensitive_unique`: both subdomains are
`acme` (valid subdomains are all-lowercase, so case-variants coincide)
and tenant `acme` already exists. -/
theorem subdomain_case_insensitive_unique_witness :
    "acme" = "acme" ∧
    ∀ (db : DB) (personId : UUID) (name : String) (tenantId memId : UUID)
      (failMidTxn : Bool), (∃ tr ∈ db.tenants, tr.subdomain = "acme") →
      createAndJoinTenant db personId name "acme" tenantId memId failMidTxn =
        .subdomainTaken db :=
  subdomain_case_insensitive_unique "acme" "acme" (by decide) (by decide) rfl

/-- The column values an application INSERT supplies to `token_blacklist`;
the `tenant_id` value may be NULL in the attempt — the table's NOT NULL
constraint decides whether the row is admitted. -/
structure TokenBlacklistInsert where
  id : UUID
  token_hash : Nat
  token_type : TokenType
  person_id : UUID
  tenant_id : Option UUID
  expires_at : Nat
deriving DecidableEq, Repr

/-- INSERT into `token_blacklist` guarded by the `tenant_id UUID NOT NULL`
constraint: an attempt carrying NULL for `tenant_id` is rejected and no
row is stored. -/
def insert_token_blacklist (rows : List TokenBlacklistRow)
    (ins : TokenBlacklistInsert) : Option (List TokenBlacklistRow) :=
  match ins.tenant_id with
  | none => none
  | some tid => some (rows ++
      [⟨ins.id, ins.token_hash, ins.token_type, ins.person_id, tid,
        ins.expires_at⟩])

/-- C10: the blacklist is itself tenant-guarded.  `token_blacklist` rows
carry a mandatory `tenant_id` (NOT NULL, hence the non-optional field of
`TokenBlacklistRow`), an insert supplying NULL for it is rejected, and the
`token_blacklist_tenant_isolation` policy hides every row from a session
with no bound tenant and every row of another tenant from a bound
session. -/
theorem token_blacklist_tenant_guarded (rows : List TokenBlacklistRow) :
    (query_token_blacklist .unset rows = [] ∧
      ∀ raw, query_token_blacklist (.malformed raw) rows = []) ∧
    (∀ T' r, r ∈ rows → r.tenant_id ≠ T' →
      r ∉ query_token_blacklist (.uuid T') rows) ∧
    (∀ ins : TokenBlacklistInsert, ins.tenant_id = none →
      insert_token_blacklist rows ins = none) := by
  refine ⟨⟨?_, ?_⟩, ?_, ?_⟩
  · simp [query_token_blacklist, List.filter_eq_nil_iff,
      tenantIsolationPolicy_none (show get_current_tenant_id .unset = none from rfl)]
  · intro raw
    simp [query_token_blacklist, List.filter_eq_nil_iff,
      tenantIsolationPolicy_none
        (show get_current_tenant_id (.malformed raw) = none from rfl)]
  · intro T' r _ hneq hmem
    have := (List.mem_filter.mp hmem).2
    rw [tenantIsolationPolicy_uuid] at this
    exact hneq (by simpa using this)
  · intro ins hnone
    unfold insert_token_blacklist
    rw [hnone]

/-- Witness for `token_blacklist_tenant_guarded`: a one-row blacklist
owned by tenant 1. -/
theorem token_blacklist_tenant_guarded_witness :
    (query_token_blacklist .unset [TokenBlacklistRow.mk 80 99 .access 5 1 100] = [] ∧
      ∀ raw, query_token_blacklist (.malformed raw)
        [TokenBlacklistRow.mk 80 99 .access 5 1 100] = []) ∧
    (∀ T' r, r ∈ [TokenBlacklistRow.mk 80 99 .access 5 1 100] →
      r.tenant_id ≠ T' →
      r ∉ query_token_blacklist (.uuid T')
        [TokenBlacklistRow.mk 80 99 .access 5 1 100]) ∧
    (∀ ins : TokenBlacklistInsert, ins.tenant_id = none →
      insert_token_blacklist [TokenBlacklistRow.mk 80 99 .access 5 1 100]
        ins = none) :=
  token_blacklist_tenant_guarded [TokenBlacklistRow.mk 80 99 .access 5 1 100]

end EMS
